import Mathlib

/-!
Shallow embedding of the retail-scm-copilot Lambda handlers
(src/lambdas/order_actions/handler.py and src/lambdas/dealer_actions/handler.py)
together with proofs about the commitment-consumption engine, the inventory
availability calculator, the dealer health scorer and the visit planner.

Modelling conventions:
* Dates and timestamps are integers.  The source stores dates as ISO
  `YYYY-MM-DD` strings and compares them lexicographically, which is
  order-isomorphic to integer day numbers, so every `<`/`<=` on date strings
  in the SQL or Python is rendered as the corresponding comparison on `Int`.
* Nullable SQL columns become `Option` fields; `COALESCE(x, 0)` and the
  Python `x or 0` idiom become `Option.getD 0`; the Python `x or d` idiom for
  a nonzero default `d` (which also replaces `0` by `d`) is `pyOr`.
* Numeric results that Python computes with `float` are rendered in `ℚ`;
  the Python built-in `round` (banker's rounding, half to even) is `pyRound`.
* A database is a record of lists of rows.  SQL `SELECT`s become list
  filters/folds, `ORDER BY` becomes `List.insertionSort`, and the one
  transaction (in `consume_commitment`) is modelled explicitly with a
  committed/staged pair so that rollback semantics are visible.
-/

/-- Python `x or default` for an optional numeric value: `None` and `0`
both fall through to the default. -/
def pyOr (v : Option ℚ) (default : ℚ) : ℚ :=
  match v with
  | some x => if x = 0 then default else x
  | none => default

/-- Python built-in `round`: round half to even (banker's rounding). -/
def pyRound (q : ℚ) : ℤ :=
  let f := Int.floor q
  let frac := q - (f : ℚ)
  if frac < 1/2 then f
  else if 1/2 < frac then f + 1
  else if f % 2 = 0 then f else f + 1

/-- A row of the `commitments` table (the columns the handlers read/write). -/
structure Commitment where
  commitment_id : String
  dealer_id : String
  product_id : String
  quantity_promised : Int
  converted_quantity : Option Int
  expected_order_date : Int
  status : String
  is_consumed : Bool
  created_at : Int
  updated_at : Int
deriving DecidableEq, Repr

/-- A row of the `products` table (columns used by the order handlers). -/
structure Product where
  product_id : String
  short_name : String
  reorder_level : Option Int
  safety_stock : Option Int
deriving DecidableEq, Repr

/-- The SQL alias `remaining_qty = quantity_promised - COALESCE(converted_quantity, 0)`. -/
def remainingQty (c : Commitment) : Int :=
  c.quantity_promised - c.converted_quantity.getD 0

/-- One staged `UPDATE commitments SET converted_quantity, status, is_consumed,
updated_at WHERE commitment_id = ...` statement (handler.py lines 149-155). -/
structure ConsumeUpdate where
  commitment_id : String
  new_converted : Int
  new_status : String
  is_consumed : Bool
  updated_at : Int
deriving DecidableEq, Repr

/-- One entry of the `consumption_details` list (handler.py lines 157-163). -/
structure ConsumeDetail where
  commitment_id : String
  expected_date : Int
  consumed_qty : Int
  status : String
  type : String
deriving DecidableEq, Repr

/-- The dict returned by `consume_commitment` (handler.py lines 168-177). -/
structure ConsumeResult where
  success : Bool
  dealer_id : String
  product_id : String
  order_quantity : Int
  consumed_from_commitments : Int
  unmatched_quantity : Int
  consumption_details : List ConsumeDetail
  fully_matched : Bool
deriving DecidableEq, Repr

/-- The `WHERE dealer_id = %s AND product_id = %s AND status IN ('PENDING',
'PARTIAL')` predicate of the fetch in `consume_commitment`. -/
def isOpenFor (dealer product : String) (c : Commitment) : Bool :=
  c.dealer_id == dealer && c.product_id == product &&
    (c.status == "PENDING" || c.status == "PARTIAL")

/-- The `ORDER BY expected_order_date ASC` relation. -/
def commitmentDateLE (a b : Commitment) : Prop :=
  a.expected_order_date ≤ b.expected_order_date

instance : DecidableRel commitmentDateLE :=
  fun a b => inferInstanceAs (Decidable (a.expected_order_date ≤ b.expected_order_date))

instance : IsTotal Commitment commitmentDateLE :=
  ⟨fun a b => Int.le_total a.expected_order_date b.expected_order_date⟩

instance : IsTrans Commitment commitmentDateLE :=
  ⟨fun _ _ _ hab hbc => le_trans hab hbc⟩

/-- The fetch at handler.py lines 116-124: open commitments of the
dealer/product pair, sorted ascending by expected order date. -/
def fetchOpenCommitments (db : List Commitment) (dealer product : String) : List Commitment :=
  (db.filter (isOpenFor dealer product)).insertionSort commitmentDateLE

/-- The `for c in commitments` loop of `consume_commitment` (handler.py lines
129-164).  Returns the staged UPDATE statements, the consumption details and
the final `remaining_order_qty`. -/
def consumeWalk (today forwardLimit ts : Int) :
    Int → List Commitment → List ConsumeUpdate × List ConsumeDetail × Int
  | remainingOrderQty, [] => ([], [], remainingOrderQty)
  | remainingOrderQty, c :: rest =>
    if remainingOrderQty ≤ 0 then ([], [], remainingOrderQty)
    else if remainingQty c ≤ 0 then consumeWalk today forwardLimit ts remainingOrderQty rest
    else
      let step := fun (consumeType : String) =>
        let qtyToConsume := min remainingOrderQty (remainingQty c)
        let newConverted := c.converted_quantity.getD 0 + qtyToConsume
        let newRemaining := c.quantity_promised - newConverted
        let newStatus := if newRemaining ≤ 0 then "CONVERTED" else "PARTIAL"
        let res := consumeWalk today forwardLimit ts (remainingOrderQty - qtyToConsume) rest
        (⟨c.commitment_id, newConverted, newStatus, newStatus == "CONVERTED", ts⟩ :: res.1,
         ⟨c.commitment_id, c.expected_order_date, qtyToConsume, newStatus, consumeType⟩ :: res.2.1,
         res.2.2)
      if c.expected_order_date ≤ today then step "backward"
      else if c.expected_order_date ≤ forwardLimit then step "forward"
      else ([], [], remainingOrderQty)

/-- The SET clause of the staged UPDATE applied to one row. -/
def updateRow (c : Commitment) (u : ConsumeUpdate) : Commitment :=
  { c with converted_quantity := some u.new_converted, status := u.new_status,
           is_consumed := u.is_consumed, updated_at := u.updated_at }

/-- Effect of one staged UPDATE on one row of the commitments table: the SET
clause fires exactly on the rows matched by the WHERE clause. -/
def applyOne (c : Commitment) (u : ConsumeUpdate) : Commitment :=
  if c.commitment_id == u.commitment_id then updateRow c u else c

/-- Effect of one staged UPDATE on the commitments table. -/
def applyUpdate (tbl : List Commitment) (u : ConsumeUpdate) : List Commitment :=
  tbl.map fun c => applyOne c u

/-- Transaction state of the psycopg2 connection (autocommit is off): the
last committed table contents, and the staged contents visible inside the
open transaction. -/
structure TxnState where
  committed : List Commitment
  staged : List Commitment
deriving DecidableEq, Repr

/-- Opening a connection: nothing staged yet. -/
def txnBegin (tbl : List Commitment) : TxnState := ⟨tbl, tbl⟩

/-- Executing one UPDATE inside the open transaction stages it. -/
def txnExec (s : TxnState) (u : ConsumeUpdate) : TxnState :=
  ⟨s.committed, applyUpdate s.staged u⟩

/-- The `conn.commit()` at handler.py line 166. -/
def txnCommit (s : TxnState) : List Commitment := s.staged

/-- The `conn.rollback()` at handler.py line 179. -/
def txnRollback (s : TxnState) : List Commitment := s.committed

/-- The full `consume_commitment(dealer_id, product_id, order_quantity)`
(handler.py lines 109-181) on the success path: returns the committed
commitments table and the result dict. -/
def consume_commitment (today ts : Int) (db : List Commitment)
    (dealer_id product_id : String) (order_quantity : Int) :
    List Commitment × ConsumeResult :=
  let forward_limit := today + 7
  let commitments := fetchOpenCommitments db dealer_id product_id
  let res := consumeWalk today forward_limit ts order_quantity commitments
  (txnCommit (res.1.foldl txnExec (txnBegin db)),
   { success := true
     dealer_id := dealer_id
     product_id := product_id
     order_quantity := order_quantity
     consumed_from_commitments := order_quantity - res.2.2
     unmatched_quantity := res.2.2
     consumption_details := res.2.1
     fully_matched := res.2.2 == 0 })

/-- A `consume_commitment` attempt under a failure oracle: `failAt = some k`
means the k-th staged UPDATE raises (or, when `k` equals the number of
updates, the final `conn.commit()` raises), after which the except branch at
handler.py lines 178-181 runs `conn.rollback()` and re-raises.  Returns the
committed table and whether the call succeeded. -/
def consume_commitment_attempt (today ts : Int) (db : List Commitment)
    (dealer_id product_id : String) (order_quantity : Int) (failAt : Option Nat) :
    List Commitment × Bool :=
  let forward_limit := today + 7
  let commitments := fetchOpenCommitments db dealer_id product_id
  let updates := (consumeWalk today forward_limit ts order_quantity commitments).1
  match failAt with
  | some k =>
    if k ≤ updates.length then
      (txnRollback ((updates.take k).foldl txnExec (txnBegin db)), false)
    else
      (txnCommit (updates.foldl txnExec (txnBegin db)), true)
  | none => (txnCommit (updates.foldl txnExec (txnBegin db)), true)

/-- A row of the `inventory` table. -/
structure InventoryRow where
  product_id : String
  qty_on_hand : Int
  qty_reserved : Int
deriving DecidableEq, Repr

/-- A row of the `orders` table (columns read by these handlers). -/
structure OrderRow where
  order_id : String
  dealer_id : String
  order_date : Int
  status : String
deriving DecidableEq, Repr

/-- A row of the `order_items` table (columns read by `check_inventory`). -/
structure OrderItem where
  order_id : String
  product_id : String
  quantity_ordered : Int
deriving DecidableEq, Repr

/-- A row of the `incoming_stock` table. -/
structure IncomingStock where
  product_id : String
  status : String
  expected_date : Int
  quantity : Int
deriving DecidableEq, Repr

/-- A row of the `invoices` table (columns read by the health scorer). -/
structure InvoiceRow where
  dealer_id : String
  invoice_date : Int
  due_date : Int
  updated_at : Int
  status : String
deriving DecidableEq, Repr

/-- A row of the `dealer_health_scores` snapshot table. -/
structure HealthSnapshot where
  dealer_id : String
  calculated_date : Int
  overall_score : Option ℚ
  health_status : String
  payment_score : Option ℚ
  order_frequency_score : Option ℚ
  commitment_score : Option ℚ
  engagement_score : Option ℚ
  total_outstanding : Option ℚ
  days_since_last_order : Option Int
  days_since_last_visit : Option Int
  attention_reason : Option String
deriving DecidableEq, Repr

/-- The relational database the handlers query. -/
structure ScmDb where
  commitments : List Commitment
  products : List Product
  inventory : List InventoryRow
  orders : List OrderRow
  order_items : List OrderItem
  incoming_stock : List IncomingStock
  invoices : List InvoiceRow
  dealer_health_scores : List HealthSnapshot
deriving DecidableEq, Repr

/-- A row of the result list of `get_pending_commitments` (the projected
columns of the SELECT at handler.py lines 76-94 that later logic and the
claims consult). -/
structure PendingRow where
  commitment_id : String
  expected_order_date : Int
  quantity_promised : Int
  converted_quantity : Option Int
  status : String
  product_name : Option String
  remaining_qty : Int
  urgency : String
deriving DecidableEq, Repr

/-- The urgency CASE expression of `get_pending_commitments` (handler.py
lines 82-85): OVERDUE when the expected date is before today, DUE_SOON when
it is at most three days from today, otherwise UPCOMING. -/
def urgencyOf (today expected : Int) : String :=
  if expected < today then "OVERDUE"
  else if expected ≤ today + 3 then "DUE_SOON"
  else "UPCOMING"

/-- The WHERE clause of `get_pending_commitments`: dealer match, status in
PENDING/PARTIAL, and the optional product filter (handler.py lines 88-93). -/
def pendingFilter (dealer : String) (productFilter : Option String) (c : Commitment) : Bool :=
  c.dealer_id == dealer && (c.status == "PENDING" || c.status == "PARTIAL") &&
    (match productFilter with
     | some p => c.product_id == p
     | none => true)

/-- The dict returned by `get_pending_commitments` (handler.py lines 97-102). -/
structure PendingResult where
  success : Bool
  dealer_id : String
  commitments : List PendingRow
  total_pending : Nat
deriving DecidableEq, Repr

/-- The full `get_pending_commitments(dealer_id, product_id)` (handler.py
lines 73-104).  The LEFT JOIN to `products` becomes a `find?` on the products
table. -/
def get_pending_commitments (today : Int) (db : ScmDb)
    (dealer_id : String) (product_id : Option String) : PendingResult :=
  let rows :=
    ((db.commitments.filter (pendingFilter dealer_id product_id)).insertionSort
        commitmentDateLE).map fun c =>
      { commitment_id := c.commitment_id
        expected_order_date := c.expected_order_date
        quantity_promised := c.quantity_promised
        converted_quantity := c.converted_quantity
        status := c.status
        product_name := (db.products.find? (fun p => p.product_id == c.product_id)).map
          (fun p => p.short_name)
        remaining_qty := c.quantity_promised - c.converted_quantity.getD 0
        urgency := urgencyOf today c.expected_order_date : PendingRow }
  { success := true
    dealer_id := dealer_id
    commitments := rows
    total_pending := rows.length }

/-- The dict returned by `check_inventory` (handler.py lines 218-232). -/
structure InventoryCheck where
  success : Bool
  product_id : String
  product_name : String
  requested_quantity : Int
  on_hand : Int
  reserved : Int
  pending_orders : Int
  available_to_promise : Int
  incoming_in_7_days : Int
  can_fulfill : Bool
  shortfall : Int
  can_fulfill_with_incoming : Bool
  reorder_level : Option Int
deriving DecidableEq, Repr

/-- The order statuses counted as pending demand by `check_inventory`. -/
def orderStatusOpen (s : String) : Bool :=
  s == "DRAFT" || s == "CONFIRMED" || s == "PROCESSING"

/-- The SUM(qty_on_hand) aggregate of the first query of `check_inventory`. -/
def invOnHand (db : ScmDb) (product_id : String) : Int :=
  ((db.inventory.filter (fun r => r.product_id == product_id)).map
    (fun r => r.qty_on_hand)).sum

/-- The SUM(qty_reserved) aggregate of the first query of `check_inventory`. -/
def invReserved (db : ScmDb) (product_id : String) : Int :=
  ((db.inventory.filter (fun r => r.product_id == product_id)).map
    (fun r => r.qty_reserved)).sum

/-- The SUM(quantity_ordered) over the join of `order_items` with `orders`
restricted to DRAFT/CONFIRMED/PROCESSING status (handler.py lines 192-199).
SQL inner-join semantics: each order item contributes once per matching
order row. -/
def pendingQty (db : ScmDb) (product_id : String) : Int :=
  (db.order_items.map (fun oi =>
    if oi.product_id == product_id then
      ((db.orders.filter (fun o =>
          o.order_id == oi.order_id && orderStatusOpen o.status)).length : Int) *
        oi.quantity_ordered
    else 0)).sum

/-- The SUM(quantity) of EXPECTED incoming stock due within seven days
(handler.py lines 200-207). -/
def incomingQty (today : Int) (db : ScmDb) (product_id : String) : Int :=
  ((db.incoming_stock.filter (fun s =>
      s.product_id == product_id && s.status == "EXPECTED" &&
        s.expected_date ≤ today + 7)).map (fun s => s.quantity)).sum

/-- The full `check_inventory(product_id, quantity)` (handler.py lines
186-234).  The function only runs SELECT statements, so it returns the
database unchanged alongside the result dict. -/
def check_inventory (today : Int) (db : ScmDb) (product_id : String) (quantity : Int) :
    ScmDb × InventoryCheck :=
  let on_hand := invOnHand db product_id
  let reserved := invReserved db product_id
  let pending := pendingQty db product_id
  let incoming := incomingQty today db product_id
  let product_row := db.products.find? (fun p => p.product_id == product_id)
  let atp := on_hand - reserved - pending
  (db,
   { success := true
     product_id := product_id
     product_name := (product_row.map (fun p => p.short_name)).getD "Unknown"
     requested_quantity := quantity
     on_hand := on_hand
     reserved := reserved
     pending_orders := pending
     available_to_promise := atp
     incoming_in_7_days := incoming
     can_fulfill := decide (atp ≥ quantity)
     shortfall := if atp < quantity then max 0 (quantity - atp) else 0
     can_fulfill_with_incoming := decide (atp + incoming ≥ quantity)
     reorder_level := product_row.bind (fun p => p.reorder_level) })

/-- The `ORDER BY calculated_date DESC` relation on health snapshots. -/
def snapshotDateGE (a b : HealthSnapshot) : Prop :=
  b.calculated_date ≤ a.calculated_date

instance : DecidableRel snapshotDateGE :=
  fun a b => inferInstanceAs (Decidable (b.calculated_date ≤ a.calculated_date))

instance : IsTotal HealthSnapshot snapshotDateGE :=
  ⟨fun a b => Int.le_total b.calculated_date a.calculated_date⟩

instance : IsTrans HealthSnapshot snapshotDateGE :=
  ⟨fun _ _ _ hab hbc => le_trans hbc hab⟩

/-- The `SELECT ... FROM dealer_health_scores WHERE dealer_id = %s ORDER BY
calculated_date DESC LIMIT 1` lookup (dealer handler lines 274-284). -/
def latestSnapshot (db : ScmDb) (dealer_id : String) : Option HealthSnapshot :=
  ((db.dealer_health_scores.filter (fun s => s.dealer_id == dealer_id)).insertionSort
    snapshotDateGE).head?

/-- The dict returned by `get_dealer_health_score`.  The precomputed and the
computed paths return different key sets; keys absent on a path are `none`
or `[]` here. -/
structure HealthResult where
  success : Bool
  dealer_id : String
  score : ℚ
  status : String
  components : List (String × ℚ)
  reasons : List String
  days_since_last_order : Option Int
  days_since_last_visit : Option Int
  total_outstanding : Option ℚ
  attention_reason : Option String
  source : String
deriving DecidableEq, Repr

/-- Status thresholds of the computed path (dealer handler lines 378-383). -/
def healthStatusOf (total : ℚ) : String :=
  if total ≥ 70 then "HEALTHY"
  else if total ≥ 50 then "AT_RISK"
  else "CRITICAL"

/-- The full `get_dealer_health_score(dealer_id)` (dealer handler lines
270-396).  `today` stands for CURRENT_DATE / datetime.now() and
`sixMonthsAgo` for `(CURRENT_DATE - INTERVAL '6 months')::text`; both are
day numbers. -/
def get_dealer_health_score (today sixMonthsAgo : Int) (db : ScmDb)
    (dealer_id : String) : HealthResult :=
  match latestSnapshot db dealer_id with
  | some pre =>
    { success := true
      dealer_id := dealer_id
      score := pre.overall_score.getD 0
      status := pre.health_status
      components :=
        [("payment", pre.payment_score.getD 0),
         ("order_frequency", pre.order_frequency_score.getD 0),
         ("commitment", pre.commitment_score.getD 0),
         ("engagement", pre.engagement_score.getD 0)]
      reasons := []
      days_since_last_order := pre.days_since_last_order
      days_since_last_visit := pre.days_since_last_visit
      total_outstanding := some (pre.total_outstanding.getD 0)
      attention_reason := pre.attention_reason
      source := "precomputed" }
  | none =>
    -- 1. Order Recency (25%)
    let windowOrders := db.orders.filter
      (fun o => o.dealer_id == dealer_id && sixMonthsAgo ≤ o.order_date)
    let last_order := (windowOrders.map (fun o => o.order_date)).max?
    let recencyInfo : Int × Int × List String :=
      match last_order with
      | some d =>
        let days_since := today - d
        (max 0 (100 - days_since * 2), days_since,
         if days_since > 30 then [s!"No order in {days_since} days"] else [])
      | none => (0, 999, ["No recent orders"])
    let recency := recencyInfo.1
    let days_since := recencyInfo.2.1
    -- 2. Frequency (25%)
    let expected : ℚ := 6
    let actual := windowOrders.length
    let frequency : ℚ := min 100 ((actual : ℚ) / expected * 100)
    let freqReasons := if actual < 3 then ["Low order frequency"] else []
    -- 3. Payment (25%)
    let windowInvoices := db.invoices.filter
      (fun i => i.dealer_id == dealer_id && sixMonthsAgo ≤ i.invoice_date)
    let on_time := (windowInvoices.filter
      (fun i => i.status == "PAID" && i.updated_at ≤ i.due_date)).length
    let inv_total := windowInvoices.length
    let payment_score : ℚ :=
      if 0 < inv_total then (on_time : ℚ) / (inv_total : ℚ) * 100 else 50
    let payReasons :=
      if 0 < inv_total ∧ payment_score < 70 then ["Payment delays"] else []
    -- 4. Commitment Fulfillment (25%)
    let windowCommits := db.commitments.filter
      (fun c => c.dealer_id == dealer_id && sixMonthsAgo ≤ c.created_at)
    let fulfilled := (windowCommits.filter (fun c => c.status == "CONVERTED")).length
    let com_total := windowCommits.length
    let fulfill_score : ℚ :=
      if 0 < com_total then (fulfilled : ℚ) / (com_total : ℚ) * 100 else 50
    let fulfillReasons :=
      if 0 < com_total ∧ fulfill_score < 70 then ["Low commitment conversion"] else []
    let scoreRecency : ℚ := (recency : ℚ) * 0.25
    let scoreFrequency : ℚ := frequency * 0.25
    let scorePayment : ℚ := payment_score * 0.25
    let scoreFulfillment : ℚ := fulfill_score * 0.25
    let total := scoreRecency + scoreFrequency + scorePayment + scoreFulfillment
    let reasons := recencyInfo.2.2 ++ freqReasons ++ payReasons ++ fulfillReasons
    { success := true
      dealer_id := dealer_id
      score := (pyRound total : ℚ)
      status := healthStatusOf total
      components :=
        [("recency", (pyRound (scoreRecency / 0.25) : ℚ)),
         ("frequency", (pyRound (scoreFrequency / 0.25) : ℚ)),
         ("payment", (pyRound (scorePayment / 0.25) : ℚ)),
         ("fulfillment", (pyRound (scoreFulfillment / 0.25) : ℚ))]
      reasons := reasons.take 3
      days_since_last_order := if days_since < 999 then some days_since else none
      days_since_last_visit := none
      total_outstanding := none
      attention_reason := none
      source := "computed" }

/-- One dealer row as fetched by the first query of `suggest_visit_plan`
(dealer handler lines 405-421): the dealer columns joined with the latest
health snapshot columns (NULL when no snapshot exists). -/
structure VPDealerRow where
  dealer_id : String
  name : String
  category : String
  last_order_date : Option Int
  last_visit_date : Option Int
  overall_score : Option ℚ
  health_status : Option String
  days_since_last_order : Option Int
  days_since_last_visit : Option Int
deriving DecidableEq, Repr

/-- One entry of `overdue_map` (dealer handler lines 438-442). -/
structure OverdueInfo where
  overdue_amount : ℚ
  days_overdue : Int
deriving DecidableEq, Repr

/-- One entry of the `scored` list (dealer handler lines 526-538), minus the
free-text `suggested_action`/`reasons` strings. -/
structure ScoredDealer where
  dealer_id : String
  name : String
  category : String
  priority : String
  priority_score : ℤ
  overdue_amount : ℚ
  days_since_last_order : Int
  health_score : ℚ
  health_status : Option String
deriving DecidableEq, Repr

/-- Urgency signal `payment_urgency = min(100, days_overdue * 3 +
overdue_amount / 10000)` (dealer handler line 487). -/
def payment_urgency (days_overdue : Int) (overdue_amount : ℚ) : ℚ :=
  min 100 ((days_overdue : ℚ) * 3 + overdue_amount / 10000)

/-- Urgency signal `order_urgency = min(100, dlo * 2.5)` (line 488). -/
def order_urgency (dlo : Int) : ℚ := min 100 ((dlo : ℚ) * 2.5)

/-- Urgency signal `visit_recency = min(100, dlv * 3)` (line 489). -/
def visit_recency_urgency (dlv : Int) : ℚ := min 100 ((dlv : ℚ) * 3)

/-- Urgency signal `commit_score = min(100, expiring * 25)` (line 490). -/
def commitment_urgency (expiring : Int) : ℚ := min 100 ((expiring : ℚ) * 25)

/-- Urgency signal `relationship_risk = max(0, 100 - health)` (line 491). -/
def relationship_risk (health : ℚ) : ℚ := max 0 (100 - health)

/-- The weighted combination at dealer handler lines 493-499. -/
def priority_score_raw (payment order visit commit relationship : ℚ) : ℚ :=
  payment * 0.30 + order * 0.25 + visit * 0.15 + commit * 0.15 + relationship * 0.15

/-- Bucketing of the raw priority score (lines 501-513). -/
def priorityBucket (score : ℚ) : String :=
  if score ≥ 70 then "HIGH"
  else if score ≥ 40 then "MEDIUM"
  else "LOW"

/-- The `days_since_last_order` fallback chain (lines 469-476): the snapshot
value if present, else computed from `last_order_date`, else the sentinel
120. -/
def dloOf (today : Int) (d : VPDealerRow) : Int :=
  match d.days_since_last_order, d.last_order_date with
  | some v, _ => v
  | none, some dt => today - dt
  | none, none => 120

/-- The `days_since_last_visit` fallback chain (lines 478-485), sentinel 60. -/
def dlvOf (today : Int) (d : VPDealerRow) : Int :=
  match d.days_since_last_visit, d.last_visit_date with
  | some v, _ => v
  | none, some dt => today - dt
  | none, none => 60

/-- Scoring of one dealer inside the `for d in dealers` loop (dealer handler
lines 461-538). -/
def scoreDealer (today : Int) (overdueMap : List (String × OverdueInfo))
    (commitMap : List (String × Int)) (d : VPDealerRow) : ScoredDealer :=
  let overdue := (overdueMap.lookup d.dealer_id).getD ⟨0, 0⟩
  let expiring := (commitMap.lookup d.dealer_id).getD 0
  let health := pyOr d.overall_score 50
  let dlo := dloOf today d
  let dlv := dlvOf today d
  let payment := payment_urgency overdue.days_overdue overdue.overdue_amount
  let order := order_urgency dlo
  let visit := visit_recency_urgency dlv
  let commit := commitment_urgency expiring
  let relationship := relationship_risk health
  let priority_score := priority_score_raw payment order visit commit relationship
  { dealer_id := d.dealer_id
    name := d.name
    category := d.category
    priority := priorityBucket priority_score
    priority_score := pyRound priority_score
    overdue_amount := overdue.overdue_amount
    days_since_last_order := dlo
    health_score := health
    health_status := d.health_status }

/-- The descending sort key `x["priority_score"]` (dealer handler line 540). -/
def scoredGE (a b : ScoredDealer) : Prop :=
  b.priority_score ≤ a.priority_score

instance : DecidableRel scoredGE :=
  fun a b => inferInstanceAs (Decidable (b.priority_score ≤ a.priority_score))

instance : IsTotal ScoredDealer scoredGE :=
  ⟨fun a b => Int.le_total b.priority_score a.priority_score⟩

instance : IsTrans ScoredDealer scoredGE :=
  ⟨fun _ _ _ hab hbc => le_trans hbc hab⟩

/-- The scoring/ranking core of `suggest_visit_plan` (dealer handler lines
460-547): score every fetched dealer row, sort descending by the (rounded)
priority score, truncate to `max_dealers`. -/
def suggest_visit_plan (today : Int) (dealers : List VPDealerRow)
    (overdueMap : List (String × OverdueInfo)) (commitMap : List (String × Int))
    (max_dealers : Nat) : List ScoredDealer :=
  ((dealers.map (scoreDealer today overdueMap commitMap)).insertionSort scoredGE).take
    max_dealers

/-- The urgency labeling rule as the spec states it (spec.md §6): OVERDUE
requires status PENDING, DUE_SOON requires status PENDING, FULFILLED is the
label of CONVERTED commitments, everything else is UPCOMING.  Written from
the spec's words, to be compared against the code's `urgencyOf`. -/
def specUrgencyRule (today expected : Int) (status : String) : String :=
  if expected < today ∧ status = "PENDING" then "OVERDUE"
  else if expected ≤ today + 3 ∧ status = "PENDING" then "DUE_SOON"
  else if status = "CONVERTED" then "FULFILLED"
  else "UPCOMING"

/-- Sample commitments table used to instantiate proved theorems. -/
def sampleCommitments : List Commitment :=
  [⟨"CA", "D1", "P1", 24, none, -3, "PENDING", false, -10, 0⟩,
   ⟨"CB", "D1", "P1", 20, some 5, 5, "PARTIAL", false, -9, 0⟩,
   ⟨"CC", "D2", "P1", 12, none, 1, "PENDING", false, -8, 0⟩]

/-- The spec ordering scenario: commitments expected at today-5, today-1,
today+2 and today+10 (with today = 0), 10 units each, all PENDING. -/
def orderingScenarioDb : List Commitment :=
  [⟨"K1", "D1", "P1", 10, none, -5, "PENDING", false, -30, 0⟩,
   ⟨"K2", "D1", "P1", 10, none, -1, "PENDING", false, -29, 0⟩,
   ⟨"K3", "D1", "P1", 10, none, 2, "PENDING", false, -28, 0⟩,
   ⟨"K4", "D1", "P1", 10, none, 10, "PENDING", false, -27, 0⟩]

/-- A database holding one past-due PARTIAL commitment; used to compare the
code's urgency label with the spec's rule. -/
def partialOverdueDb : ScmDb :=
  { commitments := [⟨"CX", "D1", "P1", 10, some 4, -1, "PARTIAL", false, -20, 0⟩]
    products := []
    inventory := []
    orders := []
    order_items := []
    incoming_stock := []
    invoices := []
    dealer_health_scores := [] }

/-- An inventory database for product P1 (on hand 50, reserved 5, one open
order of 7, incoming 9 within the window); product P404 appears nowhere. -/
def sampleInventoryDb : ScmDb :=
  { commitments := []
    products := [⟨"P1", "Widget", some 5, some 2⟩]
    inventory := [⟨"P1", 50, 5⟩]
    orders := [⟨"O1", "D1", -1, "CONFIRMED"⟩, ⟨"O2", "D1", -2, "DELIVERED"⟩]
    order_items := [⟨"O1", "P1", 7⟩, ⟨"O2", "P1", 100⟩]
    incoming_stock := [⟨"P1", "EXPECTED", 3, 9⟩, ⟨"P1", "EXPECTED", 20, 500⟩]
    invoices := []
    dealer_health_scores := [] }

/-- A database in which dealer D9 has no snapshot, no orders, no invoices
and no commitments inside the six-month window (dealer D8 has data, D9 has
one order far outside the window). -/
def quietDealerDb : ScmDb :=
  { commitments := [⟨"CZ", "D8", "P1", 10, none, 4, "PENDING", false, -20, 0⟩]
    products := []
    inventory := []
    orders := [⟨"O8", "D8", -3, "CONFIRMED"⟩, ⟨"O9", "D9", -400, "DELIVERED"⟩]
    order_items := []
    incoming_stock := []
    invoices := [⟨"D8", -40, -10, -12, "PAID"⟩]
    dealer_health_scores := [⟨"D8", -1, some 60, "AT_RISK", some 55, some 60, some 70, some 55,
      some 0, some 12, some 9, none⟩] }

/-- The first row of `sampleCommitments` after a 30-unit consumption on day
0 with write timestamp 9: fully converted. -/
def consumedRowCA : Commitment :=
  ⟨"CA", "D1", "P1", 24, some 24, -3, "CONVERTED", true, -10, 9⟩

/-- Expected table contents after the ordering scenario: the three in-window
commitments fully converted, the out-of-window one untouched. -/
def orderingScenarioResultDb : List Commitment :=
  [⟨"K1", "D1", "P1", 10, some 10, -5, "CONVERTED", true, -30, 99⟩,
   ⟨"K2", "D1", "P1", 10, some 10, -1, "CONVERTED", true, -29, 99⟩,
   ⟨"K3", "D1", "P1", 10, some 10, 2, "CONVERTED", true, -28, 99⟩,
   ⟨"K4", "D1", "P1", 10, none, 10, "PENDING", false, -27, 0⟩]

/-- Expected consumption details of the ordering scenario, in date order. -/
def orderingScenarioDetails : List ConsumeDetail :=
  [⟨"K1", -5, 10, "CONVERTED", "backward"⟩,
   ⟨"K2", -1, 10, "CONVERTED", "backward"⟩,
   ⟨"K3", 2, 10, "CONVERTED", "forward"⟩]

/-- The spec visit-planner scenario dealer: health 80, snapshot day gaps
5 (order) and 2 (visit). -/
def scenarioDealer : VPDealerRow :=
  ⟨"D1", "Acme Traders", "A", none, none, some 80, some "HEALTHY", some 5, some 2⟩

/-- Overdue map for the visit-planner scenario: Rs 20000 overdue, 10 days. -/
def scenarioOverdueMap : List (String × OverdueInfo) := [("D1", ⟨20000, 10⟩)]

/-- The scored output row of the visit-planner scenario dealer (raw score
16.625, rounded 17, LOW bucket). -/
def scenarioScored : ScoredDealer :=
  ⟨"D1", "Acme Traders", "A", "LOW", 17, 20000, 5, 80, some "HEALTHY"⟩

/-! Helper lemmas about the consumption walk and the transaction model. -/

/-- With nothing left to consume the walk stops immediately (the
`if remaining_order_qty <= 0: break` guard). -/
theorem consumeWalk_rem_le_zero (today fwd ts : Int) (cs : List Commitment)
    (remaining : Int) (h : remaining ≤ 0) :
    consumeWalk today fwd ts remaining cs = ([], [], remaining) := by
  cases cs with
  | nil => simp [consumeWalk]
  | cons c rest => simp [consumeWalk, h]

/-- Statements executed inside the open transaction never touch the
committed table contents. -/
theorem foldl_txnExec_committed (us : List ConsumeUpdate) (s : TxnState) :
    (us.foldl txnExec s).committed = s.committed := by
  induction us generalizing s with
  | nil => rfl
  | cons u us ih => simp only [List.foldl_cons, ih, txnExec]

/-- The staged table contents after executing a list of UPDATEs. -/
theorem foldl_txnExec_staged (us : List ConsumeUpdate) (s : TxnState) :
    (us.foldl txnExec s).staged = us.foldl applyUpdate s.staged := by
  induction us generalizing s with
  | nil => rfl
  | cons u us ih => simp only [List.foldl_cons, ih, txnExec]

/-- Applying a list of UPDATEs to a table acts row by row. -/
theorem foldl_applyUpdate_eq_map (us : List ConsumeUpdate) (tbl : List Commitment) :
    us.foldl applyUpdate tbl = tbl.map fun c => us.foldl applyOne c := by
  induction us generalizing tbl with
  | nil => simp
  | cons u us ih =>
    simp only [List.foldl_cons]
    rw [show applyUpdate tbl u = tbl.map (fun c => applyOne c u) from rfl, ih, List.map_map]
    rfl

/-- A later SET clause fully overwrites an earlier one. -/
theorem updateRow_updateRow (c : Commitment) (u v : ConsumeUpdate) :
    updateRow (updateRow c u) v = updateRow c v := rfl

/-- The SET clause does not change the primary key. -/
theorem updateRow_commitment_id (c : Commitment) (u : ConsumeUpdate) :
    (updateRow c u).commitment_id = c.commitment_id := rfl

/-- A row run through a list of UPDATEs either never matched (and is
unchanged) or ends as some matching UPDATE applied to it. -/
theorem foldl_applyOne_cases (us : List ConsumeUpdate) (c : Commitment) :
    us.foldl applyOne c = c ∨
      ∃ u ∈ us, u.commitment_id = c.commitment_id ∧ us.foldl applyOne c = updateRow c u := by
  induction us generalizing c with
  | nil => left; rfl
  | cons u us ih =>
    by_cases h : c.commitment_id == u.commitment_id
    · have hid : u.commitment_id = c.commitment_id := (eq_of_beq h).symm
      rcases ih (updateRow c u) with h1 | ⟨v, hv, hvid, h2⟩
      · right
        exact ⟨u, List.mem_cons_self u us, hid, by
          simp only [List.foldl_cons, applyOne, h, if_true, h1]⟩
      · right
        refine ⟨v, List.mem_cons_of_mem u hv, ?_, ?_⟩
        · simpa [updateRow_commitment_id] using hvid
        · simp only [List.foldl_cons, applyOne, h, if_true, h2, updateRow_updateRow]
    · rcases ih c with h1 | ⟨v, hv, hvid, h2⟩
      · left; simp [List.foldl_cons, applyOne, h, h1]
      · right
        exact ⟨v, List.mem_cons_of_mem u hv, hvid, by
          simp [List.foldl_cons, applyOne, h, h2]⟩

/-- What the walk consumes in total is exactly the sum of the per-commitment
consumed quantities it reports. -/
theorem consumeWalk_conservation (today fwd ts : Int) (cs : List Commitment) :
    ∀ remaining : Int,
      remaining - (consumeWalk today fwd ts remaining cs).2.2 =
        ((consumeWalk today fwd ts remaining cs).2.1.map ConsumeDetail.consumed_qty).sum := by
  induction cs with
  | nil => intro r; simp [consumeWalk]
  | cons c rest ih =>
    intro r
    by_cases h1 : r ≤ 0
    · simp [consumeWalk, h1]
    · by_cases h2 : remainingQty c ≤ 0
      · simpa [consumeWalk, h1, h2] using ih r
      · by_cases h3 : c.expected_order_date ≤ today
        · have := ih (r - min r (remainingQty c))
          simp only [consumeWalk, if_neg h1, if_neg h2, if_pos h3, List.map_cons, List.sum_cons]
          omega
        · by_cases h4 : c.expected_order_date ≤ fwd
          · have := ih (r - min r (remainingQty c))
            simp only [consumeWalk, if_neg h1, if_neg h2, if_neg h3, if_pos h4, List.map_cons,
              List.sum_cons]
            omega
          · simp [consumeWalk, h1, h2, h3, h4]

/-- Every UPDATE the walk stages comes from a listed commitment with a date
inside the consumption window, and its written quantity/status are within
bounds and consistent, provided the table satisfied the quantity invariant. -/
theorem consumeWalk_updates_sound (today fwd ts : Int) (cs : List Commitment)
    (hinv : ∀ c ∈ cs, 0 ≤ c.converted_quantity.getD 0 ∧
      c.converted_quantity.getD 0 ≤ c.quantity_promised) :
    ∀ remaining : Int, ∀ u ∈ (consumeWalk today fwd ts remaining cs).1,
      ∃ c ∈ cs, u.commitment_id = c.commitment_id ∧
        c.expected_order_date ≤ max today fwd ∧
        0 < u.new_converted ∧ u.new_converted ≤ c.quantity_promised ∧
        (u.new_status = "PARTIAL" ↔ u.new_converted < c.quantity_promised) ∧
        (u.new_status = "CONVERTED" ↔ u.new_converted = c.quantity_promised) := by
  induction cs with
  | nil => intro r u hu; simp [consumeWalk] at hu
  | cons c rest ih =>
    have hc := hinv c (List.mem_cons_self c rest)
    have hrest : ∀ x ∈ rest, 0 ≤ x.converted_quantity.getD 0 ∧
        x.converted_quantity.getD 0 ≤ x.quantity_promised :=
      fun x hx => hinv x (List.mem_cons_of_mem c hx)
    intro r u hu
    by_cases h1 : r ≤ 0
    · simp [consumeWalk, h1] at hu
    · by_cases h2 : remainingQty c ≤ 0
      · simp only [consumeWalk, if_neg h1, if_pos h2] at hu
        obtain ⟨c', hc', rest'⟩ := ih hrest r u hu
        exact ⟨c', List.mem_cons_of_mem c hc', rest'⟩
      · have hr : 0 < r := lt_of_not_le h1
        have hq : 0 < remainingQty c := lt_of_not_le h2
        have hle : min r (remainingQty c) ≤ remainingQty c := min_le_right _ _
        by_cases h3 : c.expected_order_date ≤ today
        · simp only [consumeWalk, if_neg h1, if_neg h2, if_pos h3, List.mem_cons] at hu
          rcases hu with rfl | hu
          · refine ⟨c, List.mem_cons_self c rest, rfl, le_trans h3 (le_max_left _ _),
              ?_, ?_, ?_, ?_⟩
            · simp only; omega
            · simp only [remainingQty] at hle hq ⊢; omega
            · simp only [remainingQty] at hle hq ⊢
              by_cases hs : c.quantity_promised -
                  (c.converted_quantity.getD 0 +
                    min r (c.quantity_promised - c.converted_quantity.getD 0)) ≤ 0
              · simp only [if_pos hs]
                constructor
                · intro hcon; exact absurd hcon (by decide)
                · intro hlt; omega
              · simp only [if_neg hs]
                constructor
                · intro _; omega
                · intro _; trivial
            · simp only [remainingQty] at hle hq ⊢
              by_cases hs : c.quantity_promised -
                  (c.converted_quantity.getD 0 +
                    min r (c.quantity_promised - c.converted_quantity.getD 0)) ≤ 0
              · simp only [if_pos hs]
                constructor
                · intro _; omega
                · intro _; trivial
              · simp only [if_neg hs]
                constructor
                · intro hcon; exact absurd hcon (by decide)
                · intro heq; omega
          · obtain ⟨c', hc', rest'⟩ := ih hrest (r - min r (remainingQty c)) u hu
            exact ⟨c', List.mem_cons_of_mem c hc', rest'⟩
        · by_cases h4 : c.expected_order_date ≤ fwd
          · simp only [consumeWalk, if_neg h1, if_neg h2, if_neg h3, if_pos h4,
              List.mem_cons] at hu
            rcases hu with rfl | hu
            · refine ⟨c, List.mem_cons_self c rest, rfl, le_trans h4 (le_max_right _ _),
                ?_, ?_, ?_, ?_⟩
              · simp only; omega
              · simp only [remainingQty] at hle hq ⊢; omega
              · simp only [remainingQty] at hle hq ⊢
                by_cases hs : c.quantity_promised -
                    (c.converted_quantity.getD 0 +
                      min r (c.quantity_promised - c.converted_quantity.getD 0)) ≤ 0
                · simp only [if_pos hs]
                  exact ⟨fun hcon => absurd hcon (by decide), fun hlt => by omega⟩
                · simp only [if_neg hs]
                  exact ⟨fun _ => by omega, fun _ => by trivial⟩
              · simp only [remainingQty] at hle hq ⊢
                by_cases hs : c.quantity_promised -
                    (c.converted_quantity.getD 0 +
                      min r (c.quantity_promised - c.converted_quantity.getD 0)) ≤ 0
                · simp only [if_pos hs]
                  exact ⟨fun _ => by omega, fun _ => by trivial⟩
                · simp only [if_neg hs]
                  exact ⟨fun hcon => absurd hcon (by decide), fun heq => by omega⟩
            · obtain ⟨c', hc', rest'⟩ := ih hrest (r - min r (remainingQty c)) u hu
              exact ⟨c', List.mem_cons_of_mem c hc', rest'⟩
          · simp [consumeWalk, h1, h2, h3, h4] at hu

/-- Every UPDATE the walk stages targets a listed commitment whose expected
date lies inside the consumption window (no invariant hypothesis needed). -/
theorem consumeWalk_updates_dates (today fwd ts : Int) (cs : List Commitment) :
    ∀ remaining : Int, ∀ u ∈ (consumeWalk today fwd ts remaining cs).1,
      ∃ c ∈ cs, u.commitment_id = c.commitment_id ∧
        c.expected_order_date ≤ max today fwd := by
  induction cs with
  | nil => intro r u hu; simp [consumeWalk] at hu
  | cons c rest ih =>
    intro r u hu
    by_cases h1 : r ≤ 0
    · simp [consumeWalk, h1] at hu
    · by_cases h2 : remainingQty c ≤ 0
      · simp only [consumeWalk, if_neg h1, if_pos h2] at hu
        obtain ⟨c', hc', rest'⟩ := ih r u hu
        exact ⟨c', List.mem_cons_of_mem c hc', rest'⟩
      · by_cases h3 : c.expected_order_date ≤ today
        · simp only [consumeWalk, if_neg h1, if_neg h2, if_pos h3, List.mem_cons] at hu
          rcases hu with rfl | hu
          · exact ⟨c, List.mem_cons_self c rest, rfl, le_trans h3 (le_max_left _ _)⟩
          · obtain ⟨c', hc', rest'⟩ := ih (r - min r (remainingQty c)) u hu
            exact ⟨c', List.mem_cons_of_mem c hc', rest'⟩
        · by_cases h4 : c.expected_order_date ≤ fwd
          · simp only [consumeWalk, if_neg h1, if_neg h2, if_neg h3, if_pos h4,
              List.mem_cons] at hu
            rcases hu with rfl | hu
            · exact ⟨c, List.mem_cons_self c rest, rfl, le_trans h4 (le_max_right _ _)⟩
            · obtain ⟨c', hc', rest'⟩ := ih (r - min r (remainingQty c)) u hu
              exact ⟨c', List.mem_cons_of_mem c hc', rest'⟩
          · simp [consumeWalk, h1, h2, h3, h4] at hu

/-- Rows returned by the open-commitments fetch are rows of the table. -/
theorem mem_of_mem_fetchOpen (db : List Commitment) (dealer product : String)
    (x : Commitment) (hx : x ∈ fetchOpenCommitments db dealer product) : x ∈ db := by
  unfold fetchOpenCommitments at hx
  rw [List.mem_insertionSort] at hx
  exact (List.mem_filter.mp hx).1

/-- Every consumption detail is tagged backward exactly when its expected
date is at or before today, and forward exactly when it lies strictly after
today but within the forward limit. -/
theorem consumeWalk_details_type (today fwd ts : Int) (cs : List Commitment) :
    ∀ remaining : Int, ∀ d ∈ (consumeWalk today fwd ts remaining cs).2.1,
      (d.type = "backward" ↔ d.expected_date ≤ today) ∧
      (d.type = "forward" ↔ today < d.expected_date ∧ d.expected_date ≤ fwd) ∧
      d.expected_date ≤ max today fwd := by
  induction cs with
  | nil => intro r d hd; simp [consumeWalk] at hd
  | cons c rest ih =>
    intro r d hd
    by_cases h1 : r ≤ 0
    · simp [consumeWalk, h1] at hd
    · by_cases h2 : remainingQty c ≤ 0
      · simp only [consumeWalk, if_neg h1, if_pos h2] at hd
        exact ih r d hd
      · by_cases h3 : c.expected_order_date ≤ today
        · simp only [consumeWalk, if_neg h1, if_neg h2, if_pos h3, List.mem_cons] at hd
          rcases hd with rfl | hd
          · exact ⟨by simp [h3], by simp [not_lt.mpr h3], le_trans h3 (le_max_left _ _)⟩
          · exact ih (r - min r (remainingQty c)) d hd
        · by_cases h4 : c.expected_order_date ≤ fwd
          · simp only [consumeWalk, if_neg h1, if_neg h2, if_neg h3, if_pos h4,
              List.mem_cons] at hd
            rcases hd with rfl | hd
            · exact ⟨by simp [h3], by simp [lt_of_not_le h3, h4],
                le_trans h4 (le_max_right _ _)⟩
            · exact ih (r - min r (remainingQty c)) d hd
          · simp [consumeWalk, h1, h2, h3, h4] at hd

/-- The expected dates of the reported details form a sublist of the
expected dates of the walked commitments: consumption follows the input
order and skips rows. -/
theorem consumeWalk_details_dates_sublist (today fwd ts : Int) (cs : List Commitment) :
    ∀ remaining : Int,
      ((consumeWalk today fwd ts remaining cs).2.1.map ConsumeDetail.expected_date).Sublist
        (cs.map Commitment.expected_order_date) := by
  induction cs with
  | nil => intro r; simp [consumeWalk]
  | cons c rest ih =>
    intro r
    by_cases h1 : r ≤ 0
    · simp [consumeWalk, h1]
    · by_cases h2 : remainingQty c ≤ 0
      · simp only [consumeWalk, if_neg h1, if_pos h2, List.map_cons]
        exact (ih r).cons c.expected_order_date
      · by_cases h3 : c.expected_order_date ≤ today
        · simp only [consumeWalk, if_neg h1, if_neg h2, if_pos h3, List.map_cons]
          exact (ih (r - min r (remainingQty c))).cons₂ c.expected_order_date
        · by_cases h4 : c.expected_order_date ≤ fwd
          · simp only [consumeWalk, if_neg h1, if_neg h2, if_neg h3, if_pos h4, List.map_cons]
            exact (ih (r - min r (remainingQty c))).cons₂ c.expected_order_date
          · simp [consumeWalk, h1, h2, h3, h4]

/-! Claim theorems for the consumption engine. -/

/-- C1: for every commitment row that `consume_commitment` updates, if
`0 <= converted_quantity <= quantity_promised` held before the call then it
holds after the call, and the status written is consistent with the
quantities: PARTIAL exactly when `0 < converted_quantity <
quantity_promised` and CONVERTED exactly when `converted_quantity =
quantity_promised`.  Rows of the result table are either unchanged rows of
the input table or updated rows satisfying the invariant and the status
consistency. -/
theorem consume_invariant (today ts : Int) (db : List Commitment)
    (dealer_id product_id : String) (order_quantity : Int)
    (hinv : ∀ c ∈ db, 0 ≤ c.converted_quantity.getD 0 ∧
      c.converted_quantity.getD 0 ≤ c.quantity_promised)
    (hkey : (db.map Commitment.commitment_id).Nodup) :
    ∀ c' ∈ (consume_commitment today ts db dealer_id product_id order_quantity).1,
      (0 ≤ c'.converted_quantity.getD 0 ∧
        c'.converted_quantity.getD 0 ≤ c'.quantity_promised) ∧
      (c' ∈ db ∨
        ((c'.status = "PARTIAL" ↔ 0 < c'.converted_quantity.getD 0 ∧
            c'.converted_quantity.getD 0 < c'.quantity_promised) ∧
         (c'.status = "CONVERTED" ↔
            c'.converted_quantity.getD 0 = c'.quantity_promised))) := by
  intro c' hc'
  have hres : (consume_commitment today ts db dealer_id product_id order_quantity).1 =
      db.map (fun c => List.foldl applyOne c ((consumeWalk today (today + 7) ts
        order_quantity (fetchOpenCommitments db dealer_id product_id)).1)) := by
    simp only [consume_commitment, txnCommit, foldl_txnExec_staged, txnBegin,
      foldl_applyUpdate_eq_map]
  rw [hres] at hc'
  obtain ⟨c, hcdb, hceq⟩ := List.mem_map.mp hc'
  rcases foldl_applyOne_cases ((consumeWalk today (today + 7) ts order_quantity
      (fetchOpenCommitments db dealer_id product_id)).1) c with heq | ⟨u, hu, huid, heq⟩
  · rw [← hceq, heq]
    exact ⟨hinv c hcdb, Or.inl hcdb⟩
  · have hfinv : ∀ x ∈ fetchOpenCommitments db dealer_id product_id,
        0 ≤ x.converted_quantity.getD 0 ∧
          x.converted_quantity.getD 0 ≤ x.quantity_promised :=
      fun x hx => hinv x (mem_of_mem_fetchOpen db dealer_id product_id x hx)
    obtain ⟨c0, hc0, hid0, hwin, hpos, hle, hpart, hconv⟩ :=
      consumeWalk_updates_sound today (today + 7) ts _ hfinv order_quantity u hu
    have hc0db : c0 ∈ db := mem_of_mem_fetchOpen db dealer_id product_id c0 hc0
    have hcc : c0 = c :=
      List.inj_on_of_nodup_map hkey hc0db hcdb (hid0.symm.trans huid)
    subst hcc
    rw [← hceq, heq]
    refine ⟨⟨?_, ?_⟩, Or.inr ⟨?_, ?_⟩⟩
    · simp only [updateRow, Option.getD_some]
      omega
    · simpa only [updateRow, Option.getD_some] using hle
    · simp only [updateRow, Option.getD_some]
      exact ⟨fun h => ⟨hpos, hpart.mp h⟩, fun h => hpart.mpr h.2⟩
    · simp only [updateRow, Option.getD_some]
      exact hconv

/-- Witness for C1: instantiating `consume_invariant` on the sample table
with a 30-unit order, at the fully converted result row CA. -/
theorem consume_invariant_witness :
    (0 ≤ consumedRowCA.converted_quantity.getD 0 ∧
      consumedRowCA.converted_quantity.getD 0 ≤ consumedRowCA.quantity_promised) ∧
    (consumedRowCA ∈ sampleCommitments ∨
      ((consumedRowCA.status = "PARTIAL" ↔ 0 < consumedRowCA.converted_quantity.getD 0 ∧
          consumedRowCA.converted_quantity.getD 0 < consumedRowCA.quantity_promised) ∧
       (consumedRowCA.status = "CONVERTED" ↔
          consumedRowCA.converted_quantity.getD 0 = consumedRowCA.quantity_promised))) :=
  consume_invariant 0 9 sampleCommitments "D1" "P1" 30 (by decide) (by decide)
    consumedRowCA (by decide)

/-- C2: for every `consume_commitment` call, the returned consumed total
plus the returned unmatched quantity equals the order quantity exactly, and
the consumed total equals the sum of the `consumed_qty` values of the
returned consumption details. -/
theorem consume_conservation (today ts : Int) (db : List Commitment)
    (dealer_id product_id : String) (order_quantity : Int) :
    (consume_commitment today ts db dealer_id product_id
          order_quantity).2.consumed_from_commitments +
        (consume_commitment today ts db dealer_id product_id
          order_quantity).2.unmatched_quantity =
      order_quantity ∧
    (consume_commitment today ts db dealer_id product_id
        order_quantity).2.consumed_from_commitments =
      ((consume_commitment today ts db dealer_id product_id
          order_quantity).2.consumption_details.map ConsumeDetail.consumed_qty).sum := by
  constructor
  · simp [consume_commitment]
  · have := consumeWalk_conservation today (today + 7) ts
      (fetchOpenCommitments db dealer_id product_id) order_quantity
    simpa [consume_commitment] using this

/-- C3: the walk visits open commitments in ascending expected-date order;
a consumed commitment is classified backward exactly when its expected date
is at or before today and forward exactly when it lies in (today, today+7];
consumed dates never exceed today+7, and rows dated after today+7 are left
unmodified in the table.  On the spec scenario (dates today-5, today-1,
today+2, today+10 and quantity covering all but the last) exactly the first
three are consumed, in date order. -/
theorem consume_window_ordering :
    (∀ (today ts : Int) (db : List Commitment) (dealer_id product_id : String)
        (order_quantity : Int),
      ∀ d ∈ (consume_commitment today ts db dealer_id product_id
          order_quantity).2.consumption_details,
        (d.type = "backward" ↔ d.expected_date ≤ today) ∧
        (d.type = "forward" ↔ today < d.expected_date ∧ d.expected_date ≤ today + 7) ∧
        d.expected_date ≤ today + 7) ∧
    (∀ (today ts : Int) (db : List Commitment) (dealer_id product_id : String)
        (order_quantity : Int),
      ((consume_commitment today ts db dealer_id product_id
          order_quantity).2.consumption_details.map
        ConsumeDetail.expected_date).Sorted (· ≤ ·)) ∧
    (∀ (today ts : Int) (db : List Commitment) (dealer_id product_id : String)
        (order_quantity : Int),
      (db.map Commitment.commitment_id).Nodup →
      ∀ c ∈ db, today + 7 < c.expected_order_date →
        c ∈ (consume_commitment today ts db dealer_id product_id order_quantity).1) ∧
    ((consume_commitment 0 99 orderingScenarioDb "D1" "P1" 30).1 =
        orderingScenarioResultDb ∧
      (consume_commitment 0 99 orderingScenarioDb "D1" "P1" 30).2.consumption_details =
        orderingScenarioDetails) := by
  have hmax : ∀ today : Int, max today (today + 7) = today + 7 :=
    fun today => max_eq_right (by omega)
  refine ⟨?_, ?_, ?_, ?_, ?_⟩
  · intro today ts db dealer_id product_id order_quantity d hd
    have hd' : d ∈ (consumeWalk today (today + 7) ts order_quantity
        (fetchOpenCommitments db dealer_id product_id)).2.1 := by
      simpa [consume_commitment] using hd
    obtain ⟨hb, hf, hw⟩ := consumeWalk_details_type today (today + 7) ts
      (fetchOpenCommitments db dealer_id product_id) order_quantity d hd'
    exact ⟨hb, hf, by rw [hmax today] at hw; exact hw⟩
  · intro today ts db dealer_id product_id order_quantity
    have hsub := consumeWalk_details_dates_sublist today (today + 7) ts
      (fetchOpenCommitments db dealer_id product_id) order_quantity
    have hsorted : (fetchOpenCommitments db dealer_id product_id).Sorted
        commitmentDateLE :=
      List.sorted_insertionSort commitmentDateLE _
    have hmapped : ((fetchOpenCommitments db dealer_id product_id).map
        Commitment.expected_order_date).Sorted (· ≤ ·) :=
      List.Pairwise.map Commitment.expected_order_date (fun _ _ h => h) hsorted
    have := List.Pairwise.sublist hsub hmapped
    simpa [consume_commitment] using this
  · intro today ts db dealer_id product_id order_quantity hkey c hcdb hdate
    have hres : (consume_commitment today ts db dealer_id product_id order_quantity).1 =
        db.map (fun x => List.foldl applyOne x ((consumeWalk today (today + 7) ts
          order_quantity (fetchOpenCommitments db dealer_id product_id)).1)) := by
      simp only [consume_commitment, txnCommit, foldl_txnExec_staged, txnBegin,
        foldl_applyUpdate_eq_map]
    rw [hres]
    rcases foldl_applyOne_cases ((consumeWalk today (today + 7) ts order_quantity
        (fetchOpenCommitments db dealer_id product_id)).1) c with heq | ⟨u, hu, huid, _⟩
    · exact List.mem_map.mpr ⟨c, hcdb, heq⟩
    · exfalso
      obtain ⟨c0, hc0, hid0, hwin⟩ := consumeWalk_updates_dates today (today + 7) ts
        (fetchOpenCommitments db dealer_id product_id) order_quantity u hu
      have hc0db : c0 ∈ db := mem_of_mem_fetchOpen db dealer_id product_id c0 hc0
      have hcc : c0 = c :=
        List.inj_on_of_nodup_map hkey hc0db hcdb (hid0.symm.trans huid)
      rw [hmax today] at hwin
      rw [hcc] at hwin
      omega
  · decide
  · decide

/-- Witness for C3: instantiating the classification part of
`consume_window_ordering` on the ordering scenario at the forward-consumed
detail of commitment K3. -/
theorem consume_window_ordering_witness :
    ((⟨"K3", 2, 10, "CONVERTED", "forward"⟩ : ConsumeDetail).type = "backward" ↔
      (⟨"K3", 2, 10, "CONVERTED", "forward"⟩ : ConsumeDetail).expected_date ≤ 0) ∧
    ((⟨"K3", 2, 10, "CONVERTED", "forward"⟩ : ConsumeDetail).type = "forward" ↔
      0 < (⟨"K3", 2, 10, "CONVERTED", "forward"⟩ : ConsumeDetail).expected_date ∧
        (⟨"K3", 2, 10, "CONVERTED", "forward"⟩ : ConsumeDetail).expected_date ≤ 0 + 7) ∧
    (⟨"K3", 2, 10, "CONVERTED", "forward"⟩ : ConsumeDetail).expected_date ≤ 0 + 7 :=
  consume_window_ordering.1 0 99 orderingScenarioDb "D1" "P1" 30
    ⟨"K3", 2, 10, "CONVERTED", "forward"⟩ (by decide)

/-- C4: a consume attempt under any failure point either commits every
staged update together (success, same table as the failure-free call) or
commits nothing at all (failure surfaced after a full rollback); no
committed partial application exists. -/
theorem consume_atomic (today ts : Int) (db : List Commitment)
    (dealer_id product_id : String) (order_quantity : Int) (failAt : Option Nat) :
    consume_commitment_attempt today ts db dealer_id product_id order_quantity failAt =
        ((consume_commitment today ts db dealer_id product_id order_quantity).1, true) ∨
      consume_commitment_attempt today ts db dealer_id product_id order_quantity failAt =
        (db, false) := by
  cases failAt with
  | none => left; rfl
  | some k =>
    simp only [consume_commitment_attempt, consume_commitment]
    by_cases hk : k ≤ ((consumeWalk today (today + 7) ts order_quantity
        (fetchOpenCommitments db dealer_id product_id)).1).length
    · right
      rw [if_pos hk]
      simp [txnRollback, foldl_txnExec_committed, txnBegin]
    · left
      rw [if_neg hk]

/-- C9: with a non-positive order quantity (violating the spec's
`order_quantity > 0` precondition) the call modifies no commitment row and
returns success with zero consumed, the whole quantity unmatched and an
empty details list. -/
theorem consume_nonpositive_qty (today ts : Int) (db : List Commitment)
    (dealer_id product_id : String) (order_quantity : Int) (h : order_quantity ≤ 0) :
    consume_commitment today ts db dealer_id product_id order_quantity =
      (db, { success := true, dealer_id := dealer_id, product_id := product_id,
             order_quantity := order_quantity, consumed_from_commitments := 0,
             unmatched_quantity := order_quantity, consumption_details := [],
             fully_matched := order_quantity == 0 }) := by
  simp only [consume_commitment]
  rw [consumeWalk_rem_le_zero _ _ _ _ _ h]
  simp [txnCommit, txnBegin]

/-- Witness for C9: `consume_commitment` with order quantity -4 on the
sample table returns the table unchanged. -/
theorem consume_nonpositive_qty_witness :
    consume_commitment 0 5 sampleCommitments "D1" "P1" (-4) =
      (sampleCommitments,
       { success := true
         dealer_id := "D1"
         product_id := "P1"
         order_quantity := -4
         consumed_from_commitments := 0
         unmatched_quantity := -4
         consumption_details := []
         fully_matched := false }) :=
  consume_nonpositive_qty 0 5 sampleCommitments "D1" "P1" (-4) (by decide)

/-! Claim theorems for the inventory availability calculator. -/

/-- C5: `check_inventory` returns `available_to_promise = on_hand - reserved
- pending` with the aggregates drawn from the inventory, open-order and
incoming-stock queries; `can_fulfill` holds exactly when the requested
quantity is at most ATP; the shortfall is `quantity - ATP` when ATP is
short and 0 otherwise; `can_fulfill_with_incoming` holds exactly when ATP
plus incoming stock within seven days covers the quantity; and the call
modifies no database row. -/
theorem check_inventory_formula (today : Int) (db : ScmDb) (product_id : String)
    (quantity : Int) :
    ((check_inventory today db product_id quantity).1 = db ∧
     (check_inventory today db product_id quantity).2.on_hand = invOnHand db product_id ∧
     (check_inventory today db product_id quantity).2.reserved = invReserved db product_id ∧
     (check_inventory today db product_id quantity).2.pending_orders =
       pendingQty db product_id ∧
     (check_inventory today db product_id quantity).2.incoming_in_7_days =
       incomingQty today db product_id ∧
     (check_inventory today db product_id quantity).2.available_to_promise =
       invOnHand db product_id - invReserved db product_id - pendingQty db product_id) ∧
    ((check_inventory today db product_id quantity).2.can_fulfill = true ↔
      quantity ≤ (check_inventory today db product_id quantity).2.available_to_promise) ∧
    ((check_inventory today db product_id quantity).2.available_to_promise < quantity →
      (check_inventory today db product_id quantity).2.shortfall =
        quantity - (check_inventory today db product_id quantity).2.available_to_promise) ∧
    (quantity ≤ (check_inventory today db product_id quantity).2.available_to_promise →
      (check_inventory today db product_id quantity).2.shortfall = 0) ∧
    ((check_inventory today db product_id quantity).2.can_fulfill_with_incoming = true ↔
      quantity ≤ (check_inventory today db product_id quantity).2.available_to_promise +
        (check_inventory today db product_id quantity).2.incoming_in_7_days) := by
  refine ⟨⟨rfl, rfl, rfl, rfl, rfl, rfl⟩, ?_, ?_, ?_, ?_⟩
  · simp [check_inventory, ge_iff_le]
  · intro h
    simp only [check_inventory] at h ⊢
    rw [if_pos h]
    omega
  · intro h
    simp only [check_inventory] at h ⊢
    rw [if_neg (not_lt.mpr h)]
  · simp [check_inventory, ge_iff_le]

/-- Witness for C5: on the sample inventory (ATP 38) a request of 100 has
shortfall `100 - ATP`. -/
theorem check_inventory_formula_witness :
    (check_inventory 0 sampleInventoryDb "P1" 100).2.shortfall =
      100 - (check_inventory 0 sampleInventoryDb "P1" 100).2.available_to_promise :=
  (check_inventory_formula 0 sampleInventoryDb "P1" 100).2.2.1 (by decide)

/-- C10: `check_inventory` on a product id matching no product, inventory,
order-item or incoming-stock row returns a success result with every
aggregate zero, product name Unknown, and `can_fulfill` exactly when the
requested quantity is non-positive. -/
theorem check_inventory_unknown (today : Int) (db : ScmDb) (product_id : String)
    (quantity : Int)
    (hinv : ∀ r ∈ db.inventory, r.product_id ≠ product_id)
    (hoi : ∀ r ∈ db.order_items, r.product_id ≠ product_id)
    (hin : ∀ r ∈ db.incoming_stock, r.product_id ≠ product_id)
    (hp : ∀ r ∈ db.products, r.product_id ≠ product_id) :
    (check_inventory today db product_id quantity).2.success = true ∧
    (check_inventory today db product_id quantity).2.on_hand = 0 ∧
    (check_inventory today db product_id quantity).2.reserved = 0 ∧
    (check_inventory today db product_id quantity).2.pending_orders = 0 ∧
    (check_inventory today db product_id quantity).2.available_to_promise = 0 ∧
    (check_inventory today db product_id quantity).2.incoming_in_7_days = 0 ∧
    (check_inventory today db product_id quantity).2.product_name = "Unknown" ∧
    ((check_inventory today db product_id quantity).2.can_fulfill = true ↔
      quantity ≤ 0) := by
  have hfilter_inv : db.inventory.filter (fun r => r.product_id == product_id) = [] := by
    rw [List.filter_eq_nil_iff]
    intro r hr
    simpa using hinv r hr
  have hfilter_in : db.incoming_stock.filter (fun s =>
      s.product_id == product_id && s.status == "EXPECTED" &&
        decide (s.expected_date ≤ today + 7)) = [] := by
    rw [List.filter_eq_nil_iff]
    intro r hr
    simp [hin r hr]
  have hfind : db.products.find? (fun p => p.product_id == product_id) = none := by
    rw [List.find?_eq_none]
    intro p hp'
    simpa using hp p hp'
  have hpend : pendingQty db product_id = 0 := by
    unfold pendingQty
    apply List.sum_eq_zero
    intro x hx
    obtain ⟨oi, hoi', rfl⟩ := List.mem_map.mp hx
    simp [hoi oi hoi']
  have hoh : invOnHand db product_id = 0 := by
    unfold invOnHand
    rw [hfilter_inv]
    rfl
  have hrs : invReserved db product_id = 0 := by
    unfold invReserved
    rw [hfilter_inv]
    rfl
  have hinc : incomingQty today db product_id = 0 := by
    unfold incomingQty
    rw [hfilter_in]
    rfl
  refine ⟨rfl, ?_, ?_, ?_, ?_, ?_, ?_, ?_⟩
  · exact hoh
  · exact hrs
  · exact hpend
  · simp only [check_inventory, hoh, hrs, hpend]
    omega
  · exact hinc
  · simp only [check_inventory, hfind]
    rfl
  · simp only [check_inventory, hoh, hrs, hpend, ge_iff_le]
    simp

/-- Witness for C10: product P404 appears nowhere in the sample inventory
database; a request of 5 units yields the empty result. -/
theorem check_inventory_unknown_witness :
    (check_inventory 0 sampleInventoryDb "P404" 5).2.success = true ∧
    (check_inventory 0 sampleInventoryDb "P404" 5).2.on_hand = 0 ∧
    (check_inventory 0 sampleInventoryDb "P404" 5).2.reserved = 0 ∧
    (check_inventory 0 sampleInventoryDb "P404" 5).2.pending_orders = 0 ∧
    (check_inventory 0 sampleInventoryDb "P404" 5).2.available_to_promise = 0 ∧
    (check_inventory 0 sampleInventoryDb "P404" 5).2.incoming_in_7_days = 0 ∧
    (check_inventory 0 sampleInventoryDb "P404" 5).2.product_name = "Unknown" ∧
    ((check_inventory 0 sampleInventoryDb "P404" 5).2.can_fulfill = true ↔ (5 : Int) ≤ 0) :=
  check_inventory_unknown 0 sampleInventoryDb "P404" 5
    (by decide) (by decide) (by decide) (by decide)

/-! Claim theorems for the pending-commitments urgency labels. -/

/-- C8 counterexample: the claim "OVERDUE iff expected_date < today and
status = PENDING" fails on the code.  A PARTIAL commitment expected
yesterday is returned with urgency OVERDUE, while the spec rule labels the
triple (today 0, expected -1, status PARTIAL) as UPCOMING. -/
theorem pending_urgency_spec_counterexample :
    (get_pending_commitments 0 partialOverdueDb "D1" none).commitments.map
        PendingRow.urgency = ["OVERDUE"] ∧
    (get_pending_commitments 0 partialOverdueDb "D1" none).commitments.map
        PendingRow.expected_order_date = [-1] ∧
    (get_pending_commitments 0 partialOverdueDb "D1" none).commitments.map
        PendingRow.status = ["PARTIAL"] ∧
    specUrgencyRule 0 (-1) "PARTIAL" = "UPCOMING" := by
  decide

/-- C8 (amended): every commitment returned by `get_pending_commitments`
carries an urgency label determined by the expected date alone (status is
not consulted): OVERDUE iff expected < today, DUE_SOON iff today <=
expected <= today+3, otherwise UPCOMING; returned rows always have status
PENDING or PARTIAL, so FULFILLED never appears. -/
theorem pending_urgency_by_date (today : Int) (db : ScmDb) (dealer_id : String)
    (product_id : Option String) :
    ∀ row ∈ (get_pending_commitments today db dealer_id product_id).commitments,
      (row.urgency = "OVERDUE" ↔ row.expected_order_date < today) ∧
      (row.urgency = "DUE_SOON" ↔ today ≤ row.expected_order_date ∧
        row.expected_order_date ≤ today + 3) ∧
      (row.urgency = "UPCOMING" ↔ today + 3 < row.expected_order_date) ∧
      (row.status = "PENDING" ∨ row.status = "PARTIAL") := by
  intro row hrow
  simp only [get_pending_commitments, List.mem_map] at hrow
  obtain ⟨c, hc, rfl⟩ := hrow
  rw [List.mem_insertionSort] at hc
  have hstat := (List.mem_filter.mp hc).2
  simp only [pendingFilter, Bool.and_eq_true, Bool.or_eq_true, beq_iff_eq] at hstat
  refine ⟨?_, ?_, ?_, ?_⟩
  · by_cases h1 : c.expected_order_date < today
    · simp only [urgencyOf, if_pos h1]
      exact iff_of_true trivial h1
    · by_cases h2 : c.expected_order_date ≤ today + 3
      · simp only [urgencyOf, if_neg h1, if_pos h2]
        exact iff_of_false (by decide) h1
      · simp only [urgencyOf, if_neg h1, if_neg h2]
        exact iff_of_false (by decide) h1
  · by_cases h1 : c.expected_order_date < today
    · simp only [urgencyOf, if_pos h1]
      exact iff_of_false (by decide) (by omega)
    · by_cases h2 : c.expected_order_date ≤ today + 3
      · simp only [urgencyOf, if_neg h1, if_pos h2]
        exact iff_of_true trivial (by omega)
      · simp only [urgencyOf, if_neg h1, if_neg h2]
        exact iff_of_false (by decide) (by omega)
  · by_cases h1 : c.expected_order_date < today
    · simp only [urgencyOf, if_pos h1]
      exact iff_of_false (by decide) (by omega)
    · by_cases h2 : c.expected_order_date ≤ today + 3
      · simp only [urgencyOf, if_neg h1, if_pos h2]
        exact iff_of_false (by decide) (by omega)
      · simp only [urgencyOf, if_neg h1, if_neg h2]
        exact iff_of_true trivial (by omega)
  · exact hstat.1.2

/-- Witness for C8 (amended): the returned row of the PARTIAL-overdue
database satisfies the date-only labeling. -/
theorem pending_urgency_by_date_witness :
    ((⟨"CX", -1, 10, some 4, "PARTIAL", none, 6, "OVERDUE"⟩ : PendingRow).urgency =
        "OVERDUE" ↔
      (⟨"CX", -1, 10, some 4, "PARTIAL", none, 6, "OVERDUE"⟩ : PendingRow).expected_order_date
        < 0) ∧
    ((⟨"CX", -1, 10, some 4, "PARTIAL", none, 6, "OVERDUE"⟩ : PendingRow).urgency =
        "DUE_SOON" ↔
      0 ≤ (⟨"CX", -1, 10, some 4, "PARTIAL", none, 6,
          "OVERDUE"⟩ : PendingRow).expected_order_date ∧
        (⟨"CX", -1, 10, some 4, "PARTIAL", none, 6,
          "OVERDUE"⟩ : PendingRow).expected_order_date ≤ 0 + 3) ∧
    ((⟨"CX", -1, 10, some 4, "PARTIAL", none, 6, "OVERDUE"⟩ : PendingRow).urgency =
        "UPCOMING" ↔
      0 + 3 < (⟨"CX", -1, 10, some 4, "PARTIAL", none, 6,
          "OVERDUE"⟩ : PendingRow).expected_order_date) ∧
    ((⟨"CX", -1, 10, some 4, "PARTIAL", none, 6, "OVERDUE"⟩ : PendingRow).status =
        "PENDING" ∨
      (⟨"CX", -1, 10, some 4, "PARTIAL", none, 6, "OVERDUE"⟩ : PendingRow).status =
        "PARTIAL") :=
  pending_urgency_by_date 0 partialOverdueDb "D1" none
    ⟨"CX", -1, 10, some 4, "PARTIAL", none, 6, "OVERDUE"⟩ (by decide)

/-! Claim theorems for the dealer health scorer and the visit planner. -/

/-- C6: for a dealer with no health-score snapshot and no orders, invoices
or commitments inside the trailing window, the computed health score has
components recency 0, frequency 0, payment 50 (neutral), fulfillment 50
(neutral), overall score 25 and status CRITICAL, via the computed path. -/
theorem health_score_quiet (today sixMonthsAgo : Int) (db : ScmDb) (dealer_id : String)
    (hsnap : ∀ s ∈ db.dealer_health_scores, s.dealer_id ≠ dealer_id)
    (hord : ∀ o ∈ db.orders, o.dealer_id = dealer_id → o.order_date < sixMonthsAgo)
    (hinv : ∀ i ∈ db.invoices, i.dealer_id = dealer_id → i.invoice_date < sixMonthsAgo)
    (hcom : ∀ c ∈ db.commitments, c.dealer_id = dealer_id → c.created_at < sixMonthsAgo) :
    (get_dealer_health_score today sixMonthsAgo db dealer_id).components =
      [("recency", 0), ("frequency", 0), ("payment", 50), ("fulfillment", 50)] ∧
    (get_dealer_health_score today sixMonthsAgo db dealer_id).score = 25 ∧
    (get_dealer_health_score today sixMonthsAgo db dealer_id).status = "CRITICAL" ∧
    (get_dealer_health_score today sixMonthsAgo db dealer_id).source = "computed" := by
  have hsnapnone : latestSnapshot db dealer_id = none := by
    unfold latestSnapshot
    have hfil : db.dealer_health_scores.filter (fun s => s.dealer_id == dealer_id) = [] := by
      rw [List.filter_eq_nil_iff]
      intro s hs
      simpa using hsnap s hs
    rw [hfil]
    rfl
  have hwo : db.orders.filter
      (fun o => o.dealer_id == dealer_id && sixMonthsAgo ≤ o.order_date) = [] := by
    rw [List.filter_eq_nil_iff]
    intro o ho
    simp only [Bool.and_eq_true, beq_iff_eq, decide_eq_true_eq, not_and]
    intro h
    exact not_le.mpr (hord o ho h)
  have hwi : db.invoices.filter
      (fun i => i.dealer_id == dealer_id && sixMonthsAgo ≤ i.invoice_date) = [] := by
    rw [List.filter_eq_nil_iff]
    intro i hi
    simp only [Bool.and_eq_true, beq_iff_eq, decide_eq_true_eq, not_and]
    intro h
    exact not_le.mpr (hinv i hi h)
  have hwc : db.commitments.filter
      (fun c => c.dealer_id == dealer_id && sixMonthsAgo ≤ c.created_at) = [] := by
    rw [List.filter_eq_nil_iff]
    intro c hc
    simp only [Bool.and_eq_true, beq_iff_eq, decide_eq_true_eq, not_and]
    intro h
    exact not_le.mpr (hcom c hc h)
  simp only [get_dealer_health_score, hsnapnone, hwo, hwi, hwc]
  norm_num [healthStatusOf, pyRound]

/-- Witness for C6: dealer D9 of the quiet-dealer database (window start
day -183). -/
theorem health_score_quiet_witness :
    (get_dealer_health_score 0 (-183) quietDealerDb "D9").components =
      [("recency", 0), ("frequency", 0), ("payment", 50), ("fulfillment", 50)] ∧
    (get_dealer_health_score 0 (-183) quietDealerDb "D9").score = 25 ∧
    (get_dealer_health_score 0 (-183) quietDealerDb "D9").status = "CRITICAL" ∧
    (get_dealer_health_score 0 (-183) quietDealerDb "D9").source = "computed" :=
  health_score_quiet 0 (-183) quietDealerDb "D9"
    (by decide) (by decide) (by decide) (by decide)

/-- C7: every dealer in the visit plan output is scored as the rounded
weighted combination 0.30*payment + 0.25*order + 0.15*visit_recency +
0.15*commitment + 0.15*relationship of the five capped urgency signals, and
bucketed on the raw combination; the spec scenario dealer (overdue 20000
for 10 days, order gap 5, visit gap 2, no expiring commitments, health 80)
gets signals 32, 12.5, 6, 0, 20, raw score 16.625 and the LOW bucket. -/
theorem visit_plan_priority :
    (∀ (today : Int) (dealers : List VPDealerRow) (overdueMap : List (String × OverdueInfo))
        (commitMap : List (String × Int)) (max_dealers : Nat),
      ∀ s ∈ suggest_visit_plan today dealers overdueMap commitMap max_dealers,
        ∃ d ∈ dealers,
          s = scoreDealer today overdueMap commitMap d ∧
          s.priority_score = pyRound (priority_score_raw
            (payment_urgency ((overdueMap.lookup d.dealer_id).getD ⟨0, 0⟩).days_overdue
              ((overdueMap.lookup d.dealer_id).getD ⟨0, 0⟩).overdue_amount)
            (order_urgency (dloOf today d)) (visit_recency_urgency (dlvOf today d))
            (commitment_urgency ((commitMap.lookup d.dealer_id).getD 0))
            (relationship_risk (pyOr d.overall_score 50))) ∧
          s.priority = priorityBucket (priority_score_raw
            (payment_urgency ((overdueMap.lookup d.dealer_id).getD ⟨0, 0⟩).days_overdue
              ((overdueMap.lookup d.dealer_id).getD ⟨0, 0⟩).overdue_amount)
            (order_urgency (dloOf today d)) (visit_recency_urgency (dlvOf today d))
            (commitment_urgency ((commitMap.lookup d.dealer_id).getD 0))
            (relationship_risk (pyOr d.overall_score 50)))) ∧
    (payment_urgency 10 20000 = 32 ∧ order_urgency 5 = 12.5 ∧
     visit_recency_urgency 2 = 6 ∧ commitment_urgency 0 = 0 ∧
     relationship_risk 80 = 20 ∧
     priority_score_raw 32 12.5 6 0 20 = 16.625 ∧
     priorityBucket 16.625 = "LOW" ∧
     (scoreDealer 0 scenarioOverdueMap [] scenarioDealer).priority = "LOW") := by
  constructor
  · intro today dealers om cm maxd s hs
    have hs1 : s ∈ (dealers.map (scoreDealer today om cm)).insertionSort scoredGE :=
      List.mem_of_mem_take hs
    rw [List.mem_insertionSort] at hs1
    obtain ⟨d, hd, rfl⟩ := List.mem_map.mp hs1
    exact ⟨d, hd, rfl, rfl, rfl⟩
  · refine ⟨?_, ?_, ?_, ?_, ?_, ?_, ?_, ?_⟩ <;>
      norm_num [payment_urgency, order_urgency, visit_recency_urgency, commitment_urgency,
        relationship_risk, priority_score_raw, priorityBucket, scoreDealer, dloOf, dlvOf,
        pyOr, scenarioDealer, scenarioOverdueMap, min_def, max_def, List.lookup]

/-- Witness for C7: the scenario dealer's scored row inside the plan
output, with its score and bucket from the weighted formula. -/
theorem visit_plan_priority_witness :
    ∃ d ∈ [scenarioDealer],
      scenarioScored = scoreDealer 0 scenarioOverdueMap [] d ∧
      scenarioScored.priority_score = pyRound (priority_score_raw
        (payment_urgency ((scenarioOverdueMap.lookup d.dealer_id).getD ⟨0, 0⟩).days_overdue
          ((scenarioOverdueMap.lookup d.dealer_id).getD ⟨0, 0⟩).overdue_amount)
        (order_urgency (dloOf 0 d)) (visit_recency_urgency (dlvOf 0 d))
        (commitment_urgency ((([] : List (String × Int)).lookup d.dealer_id).getD 0))
        (relationship_risk (pyOr d.overall_score 50))) ∧
      scenarioScored.priority = priorityBucket (priority_score_raw
        (payment_urgency ((scenarioOverdueMap.lookup d.dealer_id).getD ⟨0, 0⟩).days_overdue
          ((scenarioOverdueMap.lookup d.dealer_id).getD ⟨0, 0⟩).overdue_amount)
        (order_urgency (dloOf 0 d)) (visit_recency_urgency (dlvOf 0 d))
        (commitment_urgency ((([] : List (String × Int)).lookup d.dealer_id).getD 0))
        (relationship_risk (pyOr d.overall_score 50))) :=
  visit_plan_priority.1 0 [scenarioDealer] scenarioOverdueMap [] 5 scenarioScored
    (by
      simp [suggest_visit_plan, scoreDealer, priorityBucket, priority_score_raw,
        payment_urgency, order_urgency, visit_recency_urgency, commitment_urgency,
        relationship_risk, dloOf, dlvOf, pyOr, pyRound, scenarioDealer, scenarioOverdueMap,
        scenarioScored, min_def, List.lookup, List.insertionSort, List.orderedInsert]
      norm_num [Int.fract])
